import Mathlib

/- Verification development for the gifskeeno video-to-GIF command line tools:
   a shallow embedding of the two near-identical entry points (the progress-bar
   variant and the plain variant).  Decoded stdout chunks are modelled as lists
   of characters; a subprocess run is described by an oracle value giving
   either a spawn failure or the exit code, the accumulated stderr text, and
   the stdout chunks fed to the streaming callback. -/

def RESOLUTION_MAX_WIDTH : Nat := 1024

def ffmpeg : String := "ffmpeg"

def ffprobe : String := "ffprobe"

def gifski : String := "gifski"

/-- Shell selected per host OS: pwsh on windows, zsh on darwin, bash otherwise. -/
def shell (os : String) : String :=
  if os = ("windows") then ("pwsh")
  else if os = ("darwin") then ("zsh")
  else ("bash")

/-- Single-quote character, used to assemble the error message strings. -/
def squote : String := String.mk [Char.ofNat 39]

/-- Launch-failure message of the shared executor of the progress variant. -/
def command_not_found_msg (cmd : String) : String :=
  ("command not found: ") ++ squote ++ cmd ++ squote ++ (".")

/-- Launch-failure message used by both metadata resolvers and, verbatim, by the
plain variant's encoder runner. -/
def ffprobe_not_found_msg : String :=
  ("command not found: ") ++ squote ++ ffprobe ++ squote ++ (". make sure ") ++
    squote ++ ffmpeg ++ squote ++ (" is installed and available in PATH (") ++
    ffprobe ++ (" is part of ") ++ ffmpeg ++ (").")

/-- Error message when the metadata payload has no stream entry. -/
def missing_stream_msg : String :=
  ("unable to retrieve resolution from stream with ") ++ ffprobe

/-- Error message when the metadata payload has no packet entry. -/
def missing_packets_msg : String :=
  ("unable to retrieve packets from stream with ") ++ ffprobe

/-- Tests whether the first list occurs as the initial segment of the second. -/
def occursAtFront : List Char → List Char → Bool
  | [], _ => true
  | _ :: _, [] => false
  | p :: ps, c :: cs => p == c && occursAtFront ps cs

/-- Tests whether the first list occurs as a contiguous segment of the second. -/
def occursWithin (pat : List Char) : List Char → Bool
  | [] => occursAtFront pat []
  | c :: cs => occursAtFront pat (c :: cs) || occursWithin pat cs

/-- Value of a nonempty string of decimal digits. -/
def parseDigits (ds : List Char) : Nat :=
  ds.foldl (fun n c => n * 10 + (c.toNat - 48)) 0

/-- Model of the script's parseInt on its inputs: the value of the maximal run
of leading decimal digits, or none (NaN) when there is no leading digit. -/
def parseIntJs (s : List Char) : Option Nat :=
  match s.takeWhile Char.isDigit with
  | [] => none
  | ds => some (parseDigits ds)

/-- Literal part of the extraction progress token. -/
def framePat : List Char := ("frame=").data

/-- Match of the extraction regex at the front of the text: the literal
"frame=" followed by at least one digit, the digit run taken greedily.
Returns the captured number. -/
def matchFrameAt (cs : List Char) : Option Nat :=
  if occursAtFront framePat cs then
    match (cs.drop 6).takeWhile Char.isDigit with
    | [] => none
    | ds => some (parseDigits ds)
  else none

/-- Captured values of the extraction regex at every position of the text, in
order of position. -/
def frameSites : List Char → List Nat
  | [] => []
  | c :: cs =>
    match matchFrameAt (c :: cs) with
    | some n => n :: frameSites cs
    | none => frameSites cs

/-- Leftmost match of the extraction regex in the text, as returned by a
non-global regex match call. -/
def matchFrameFirst : List Char → Option Nat
  | [] => none
  | c :: cs =>
    match matchFrameAt (c :: cs) with
    | some n => some n
    | none => matchFrameFirst cs

/-- Outcome of one call of the shared progress bar: no call at all, a call on a
non-finite number (NaN or a division by zero), or a call on a rational value. -/
inductive Rendered where
  | noRender
  | nonfinite
  | val (p : ℚ)
deriving DecidableEq

/-- Embedding of the extraction phase stdout callback: leftmost "frame=N"
match; when N parses and is nonzero the bar is rendered on N divided by the
raw packet count divided by 2 (NaN/infinite when that count is unknown or
zero). -/
def generate_frames_chunk_render (total_frames : Option Nat) (data : List Char) : Rendered :=
  match matchFrameFirst data with
  | none => Rendered.noRender
  | some n =>
    if n = 0 then Rendered.noRender
    else
      match total_frames with
      | none => Rendered.nonfinite
      | some t =>
        if t = 0 then Rendered.nonfinite
        else Rendered.val ((n : ℚ) / (t : ℚ) / 2)

/-- Literal head of the encoder progress token. -/
def gifskiPat1 : List Char := ("Frame ").data

/-- Literal separator of the encoder progress token. -/
def gifskiPat2 : List Char := (" / ").data

/-- Match of the encoder regex at the front of the text: "Frame " then a digit
run, then " / ", then a digit run.  Returns the first captured number and the
length of the whole match. -/
def matchGifskiAt (cs : List Char) : Option (Nat × Nat) :=
  if occursAtFront gifskiPat1 cs then
    match (cs.drop 6).takeWhile Char.isDigit with
    | [] => none
    | ds1 =>
      let r2 := (cs.drop 6).drop ds1.length
      if occursAtFront gifskiPat2 r2 then
        match (r2.drop 3).takeWhile Char.isDigit with
        | [] => none
        | ds2 => some (parseDigits ds1, 6 + ds1.length + 3 + ds2.length)
      else none
  else none

/-- Scan of the encoder regex over a suffix of the chunk: pos is the absolute
position of the head of the suffix; returns the captured value and the
absolute end position of the leftmost match. -/
def scanGifskiFrom : List Char → Nat → Option (Nat × Nat)
  | [], _ => none
  | c :: cs, pos =>
    match matchGifskiAt (c :: cs) with
    | some m => some (m.1, pos + m.2)
    | none => scanGifskiFrom cs (pos + 1)

/-- Embedding of one exec call of the global encoder regex: leftmost match at
or after the persistent lastIndex, with the end position of the match. -/
def execGifski (cs : List Char) (lastIndex : Nat) : Option (Nat × Nat) :=
  scanGifskiFrom (cs.drop lastIndex) lastIndex

/-- Positions, captured values and end positions of the encoder regex at every
position of the text, in order of position. -/
def gifskiSitesAux : List Char → Nat → List (Nat × Nat × Nat)
  | [], _ => []
  | c :: cs, pos =>
    match matchGifskiAt (c :: cs) with
    | some m => (pos, m.1, pos + m.2) :: gifskiSitesAux cs (pos + 1)
    | none => gifskiSitesAux cs (pos + 1)

/-- All matches of the encoder regex in a chunk, from position zero. -/
def gifskiSites (cs : List Char) : List (Nat × Nat × Nat) :=
  gifskiSitesAux cs 0

/-- Embedding of the encoder phase stdout callback: one exec of the shared
global regex starting at the persistent lastIndex; on a match the state
advances to the end of the match (else resets to zero), and when the captured
N is nonzero the bar is rendered on 0.5 + min(N / total / 2, 0.5).  When the
expected total is zero the quotient is infinite, the min is 0.5 and the bar is
rendered on 1. -/
def create_gif_chunk_step (total_frames lastIndex : Nat) (line : List Char) : Nat × Rendered :=
  match execGifski line lastIndex with
  | none => (0, Rendered.noRender)
  | some me =>
    (me.2,
     if me.1 = 0 then Rendered.noRender
     else if total_frames = 0 then Rendered.val 1
     else Rendered.val (1/2 + min ((me.1 : ℚ) / (total_frames : ℚ) / 2) (1/2)))

/-- Render outcomes of the encoder callback over the successive chunks,
threading the persistent regex state. -/
def create_gif_chunks_go (total_frames : Nat) : Nat → List (List Char) → List Rendered
  | _, [] => []
  | lastIndex, c :: cs =>
    (create_gif_chunk_step total_frames lastIndex c).2 ::
      create_gif_chunks_go total_frames (create_gif_chunk_step total_frames lastIndex c).1 cs

/-- Oracle describing a spawned subprocess: either the spawn call threw, or the
process ran with an exit code, accumulated stderr text, and a list of decoded
stdout chunks. -/
inductive SpawnOutcome where
  | launchFailure
  | ran (code : Int) (stderrText : String) (stdoutChunks : List (List Char))
deriving DecidableEq

/-- Embedding of execute_command_piped of the progress variant: a spawn
failure yields the synthesized message; otherwise the run fails exactly when
the exit code is nonzero or any stderr text was captured, the error being the
accumulated stderr text. -/
def execute_command_piped (cmd : String) (out : SpawnOutcome) : Except String Unit :=
  match out with
  | SpawnOutcome.launchFailure => Except.error (command_not_found_msg cmd)
  | SpawnOutcome.ran code stderrText _ =>
    if code ≠ 0 ∨ 0 < stderrText.length then Except.error stderrText
    else Except.ok ()

/-- Stream entry of the metadata payload of the progress variant. -/
structure StreamInfo where
  width : Nat
  height : Nat
  nb_read_packets : String
deriving DecidableEq

/-- Packet entry of the metadata payload. -/
structure Packet where
  pts_time : String
deriving DecidableEq

/-- Resolved video info: the authoritative stream and packet entries. -/
structure VideoInfo where
  stream : StreamInfo
  last_packet : Packet
deriving DecidableEq

/-- Schema of the metadata payload of the progress variant. -/
structure FfProbeStreams where
  packets : List Packet
  streams : List StreamInfo
deriving DecidableEq

/-- Entry-selection stage of get_video_info: shift takes the first stream
entry, pop takes the last packet entry, each absence being a failure with its
own message. -/
def get_video_info_parse (p : FfProbeStreams) : Except String VideoInfo :=
  match p.streams.head? with
  | none => Except.error missing_stream_msg
  | some stream =>
    match p.packets.getLast? with
    | none => Except.error missing_packets_msg
    | some last_packet => Except.ok ⟨stream, last_packet⟩

/-- Oracle describing the metadata subprocess run of a resolver: a spawn
failure, or the exit code, the decoded stderr text, and the outcome of
JSON-parsing and schema-validating the decoded stdout. -/
inductive ProbeOutcome (α : Type) where
  | launchFailure
  | completed (code : Int) (stderrText : String) (payload : Except String α)

/-- Embedding of get_video_info of the progress variant: launch failure yields
the ffprobe message; a nonzero exit yields the stderr text; otherwise the
payload is validated and its entries are selected -- the stderr text is not
consulted on the success path. -/
def get_video_info (out : ProbeOutcome FfProbeStreams) : Except String VideoInfo :=
  match out with
  | ProbeOutcome.launchFailure => Except.error ffprobe_not_found_msg
  | ProbeOutcome.completed code stderrText payload =>
    if code ≠ 0 then Except.error stderrText
    else
      match payload with
      | Except.error e => Except.error e
      | Except.ok p => get_video_info_parse p

/-- Expected output frame count of the extraction plan: defined when the raw
packet count parsed and the duration is truthy (present, numeric and nonzero);
the original fps is the packet count over the duration, and the count is the
floor of the packet count over (original fps over target fps).  This value is
computed by generate_frames but never read afterwards. -/
def total_generated_frames (total_frames : Option Nat) (duration : Option ℚ) (fps : ℚ) : Option ℤ :=
  match total_frames, duration with
  | some t, some d =>
    if d ≠ 0 then
      let original_fps : ℚ := (t : ℚ) / d
      some ⌊(t : ℚ) / (original_fps / fps)⌋
    else none
  | _, _ => none

/-- Frame-rate filter argument. -/
def fps_arg (fps : Nat) : String := ("fps=") ++ toString fps

/-- Downscale filter argument: present exactly when the original-size flag is
absent and the stream width exceeds the fixed threshold; the height component
is -1 (auto). -/
def scale_arg (keep_original_size : Bool) (width : Nat) : Option String :=
  if keep_original_size = false ∧ RESOLUTION_MAX_WIDTH < width then
    some (("scale=") ++ toString RESOLUTION_MAX_WIDTH ++ (":-1"))
  else none

/-- JS Array.join with a comma separator. -/
def join_comma : List String → String
  | [] => ("")
  | [a] => a
  | a :: b :: rest => a ++ (",") ++ join_comma (b :: rest)

/-- Video-filter chain of the extraction phase: the defined entries of
[scale_arg, fps_arg] joined by commas. -/
def vf_args (keep_original_size : Bool) (width : Nat) (fps : Nat) : String :=
  join_comma (([scale_arg keep_original_size width, some (fps_arg fps)]).filterMap id)

/-- Embedding of generate_frames of the progress variant: the raw packet count
is parsed from the stream entry, the extractor runs through the executor, each
stdout chunk drives one callback render, and after the run -- success or
failure -- the bar is rendered on exactly 0.5. -/
def generate_frames (info : VideoInfo) (out : SpawnOutcome) : Except String Unit × List Rendered :=
  (execute_command_piped ffmpeg out,
   (match out with
    | SpawnOutcome.launchFailure => []
    | SpawnOutcome.ran _ _ chunks =>
      chunks.map (generate_frames_chunk_render (parseIntJs info.stream.nb_read_packets.data))) ++
     [Rendered.val (1/2)])

/-- Embedding of create_gif_from_frames of the progress variant: the expected
total is the number of entries of the working directory at invocation time
(filter(Boolean) keeps every entry), the encoder runs through the shell, the
chunks drive the stateful callback, and after the run -- success or failure --
the bar is rendered on exactly 1. -/
def create_gif_from_frames (dirEntries : List String) (os : String) (out : SpawnOutcome) :
    Except String Unit × List Rendered :=
  (execute_command_piped (shell os) out,
   (match out with
    | SpawnOutcome.launchFailure => []
    | SpawnOutcome.ran _ _ chunks => create_gif_chunks_go dirEntries.length 0 chunks) ++
     [Rendered.val 1])

/-- Embedding of clean_up_temp_dir: the recursive removal runs inside a try
block; a removal failure is logged (the returned flag) and never thrown. -/
def clean_up_temp_dir (removeFails : Bool) : Bool := removeFails

/-- Observable outcome of one run of the coordinator action. -/
structure ActionResult where
  exit_code : Nat
  temp_dir_created : Bool
  cleanup_called : Bool
  cleanup_failure_logged : Bool
deriving DecidableEq

/-- Embedding of the coordinator action of the progress variant: resolver,
then extraction, then encoding; the working directory is created only after
the resolver succeeds, and the cleanup runs on the extraction-failure path, on
the encoding-failure path and on the success path, before the exit status is
decided. -/
def action (probe : ProbeOutcome FfProbeStreams) (genOut gifOut : SpawnOutcome)
    (dirEntries : List String) (os : String) (removeFails : Bool) : ActionResult :=
  match get_video_info probe with
  | Except.error _ => ⟨1, false, false, false⟩
  | Except.ok info =>
    match (generate_frames info genOut).1 with
    | Except.error _ => ⟨1, true, true, clean_up_temp_dir removeFails⟩
    | Except.ok _ =>
      match (create_gif_from_frames dirEntries os gifOut).1 with
      | Except.error _ => ⟨1, true, true, clean_up_temp_dir removeFails⟩
      | Except.ok _ => ⟨0, true, true, clean_up_temp_dir removeFails⟩

/-- Stream entry of the plain variant's metadata payload. -/
structure FfProbeStream where
  width : Nat
  height : Nat
deriving DecidableEq

/-- Schema of the plain variant's metadata payload. -/
structure GifskeenoStreams where
  streams : List FfProbeStream
deriving DecidableEq

/-- Embedding of get_video_resolution of the plain variant: same shape as
get_video_info, with only the first stream entry selected. -/
def get_video_resolution (out : ProbeOutcome GifskeenoStreams) : Except String FfProbeStream :=
  match out with
  | ProbeOutcome.launchFailure => Except.error ffprobe_not_found_msg
  | ProbeOutcome.completed code stderrText payload =>
    if code ≠ 0 then Except.error stderrText
    else
      match payload with
      | Except.error e => Except.error e
      | Except.ok p =>
        match p.streams.head? with
        | none => Except.error missing_stream_msg
        | some r => Except.ok r

/-- Embedding of create_gif_from_frames of the plain variant: the spawn-catch
branch returns the ffprobe/ffmpeg launch message, although the command being
launched is the shell running the gifski encoder; otherwise the run fails
exactly when the exit code is nonzero or stderr text was captured. -/
def gifskeeno_create_gif_from_frames (out : SpawnOutcome) : Except String Unit :=
  match out with
  | SpawnOutcome.launchFailure => Except.error ffprobe_not_found_msg
  | SpawnOutcome.ran code stderrText _ =>
    if code ≠ 0 ∨ 0 < stderrText.length then Except.error stderrText
    else Except.ok ()

/-- Reading of claim C1 on one extraction chunk: the last "frame=N" occurrence
of the chunk, rendered on min(N over the derived expected count over 2, 0.5)
when that count is known and nonzero. -/
def claim_frames_chunk_render (expected_total : Option ℤ) (data : List Char) : Rendered :=
  match (frameSites data).getLast?, expected_total with
  | some n, some t =>
    if t ≠ 0 then Rendered.val (min ((n : ℚ) / (t : ℚ) / 2) (1/2)) else Rendered.noRender
  | _, _ => Rendered.noRender

/-- Reading of claim C4 on one encoder chunk: the last match of the pattern in
the chunk, rendered on 0.5 + min(N over the expected total over 2, 0.5). -/
def claim_gif_chunk_render (total_frames : Nat) (line : List Char) : Rendered :=
  match (gifskiSites line).getLast? with
  | some s => Rendered.val (1/2 + min ((s.2.1 : ℚ) / (total_frames : ℚ) / 2) (1/2))
  | none => Rendered.noRender

/-- Constant the spec names for the downscale filter. -/
def scale_filter : String := "scale=1024:-1"

/-- Concrete stream entry used in witnesses: 300 packets, width 1280. -/
def wStream : StreamInfo := ⟨1280, 720, ("300")⟩

/-- Concrete packet entry used in witnesses: last timestamp "10.0". -/
def wPacket : Packet := ⟨("10.0")⟩

/-- Concrete metadata payload with one stream and one packet entry. -/
def wPayload : FfProbeStreams := ⟨[wPacket], [wStream]⟩

/-- Concrete non-empty stderr text of a run that exited with code 0. -/
def wWarn : String := "deprecated pixel format used"

/-- Concrete extraction chunk holding two matches of the extraction regex. -/
def wC1data : List Char := ("frame=100 frame=110").data

/-- Concrete encoder chunk holding two matches of the encoder regex. -/
def c4chunk : List Char := ("Frame 1 / 9 Frame 2 / 9").data

/-- Concrete encoder chunk whose single match starts at position 2. -/
def c4witnessLine : List Char := ("xxFrame 3 / 9").data

/-- Leftmost-match scan agrees with the head of the enumeration of all match
positions of the extraction regex. -/
theorem matchFrameFirst_eq_head (cs : List Char) :
    matchFrameFirst cs = (frameSites cs).head? := by
  induction cs with
  | nil => rfl
  | cons c cs ih =>
    unfold matchFrameFirst frameSites
    cases h : matchFrameAt (c :: cs) with
    | some n => simp
    | none => simpa using ih

/-- Claim C2 (confirmed): a launched invocation through the executor is
reported as failed exactly when its exit status is nonzero or any stderr text
was captured; in particular exit status 0 with non-empty stderr fails. -/
theorem executor_failure_policy (cmd : String) (code : Int) (stderrText : String)
    (chunks : List (List Char)) :
    (∃ e, execute_command_piped cmd (SpawnOutcome.ran code stderrText chunks) = Except.error e) ↔
      code ≠ 0 ∨ 0 < stderrText.length := by
  simp only [execute_command_piped]
  split
  · simp_all
  · simp_all

/-- Claim C3 (confirmed): the last render of the extraction phase is exactly
0.5 and the last render of the encoding phase is exactly 1, whatever the spawn
outcome and the intermediate chunk-driven renders were. -/
theorem progress_phase_boundaries (info : VideoInfo) (dirEntries : List String) (os : String)
    (outG outE : SpawnOutcome) :
    ((generate_frames info outG).2).getLast? = some (Rendered.val (1/2)) ∧
    ((create_gif_from_frames dirEntries os outE).2).getLast? = some (Rendered.val 1) := by
  constructor
  · cases outG <;> simp [generate_frames, List.getLast?_concat]
  · cases outE <;> simp [create_gif_from_frames, List.getLast?_concat]

/-- Claim C5 (confirmed): whenever the working directory was created, the
coordinator calls the recursive cleanup on every exit path, a cleanup failure
is logged, and the exit status does not depend on whether the cleanup
failed. -/
theorem cleanup_on_every_exit_path (probe : ProbeOutcome FfProbeStreams)
    (genOut gifOut : SpawnOutcome) (dirEntries : List String) (os : String) (removeFails : Bool)
    (h : (action probe genOut gifOut dirEntries os removeFails).temp_dir_created = true) :
    (action probe genOut gifOut dirEntries os removeFails).cleanup_called = true ∧
    (action probe genOut gifOut dirEntries os removeFails).cleanup_failure_logged = removeFails ∧
    (action probe genOut gifOut dirEntries os removeFails).exit_code =
      (action probe genOut gifOut dirEntries os false).exit_code := by
  cases hv : get_video_info probe with
  | error e =>
    simp only [action, hv] at h
    simp at h
  | ok info =>
    cases hg : (generate_frames info genOut).1 with
    | error e =>
      simp only [action, clean_up_temp_dir, hv, hg]
      simp
    | ok u =>
      cases hc : (create_gif_from_frames dirEntries os gifOut).1 with
      | error e =>
        simp only [action, clean_up_temp_dir, hv, hg, hc]
        simp
      | ok u2 =>
        simp only [action, clean_up_temp_dir, hv, hg, hc]
        simp

/-- Witness for claim C5 at a successful run with a failing cleanup. -/
theorem cleanup_on_every_exit_path_witness :
    (action (ProbeOutcome.completed 0 ("") (Except.ok wPayload)) (SpawnOutcome.ran 0 ("") [])
        (SpawnOutcome.ran 0 ("") []) [] ("linux") true).temp_dir_created = true ∧
    ((action (ProbeOutcome.completed 0 ("") (Except.ok wPayload)) (SpawnOutcome.ran 0 ("") [])
        (SpawnOutcome.ran 0 ("") []) [] ("linux") true).cleanup_called = true ∧
     (action (ProbeOutcome.completed 0 ("") (Except.ok wPayload)) (SpawnOutcome.ran 0 ("") [])
        (SpawnOutcome.ran 0 ("") []) [] ("linux") true).cleanup_failure_logged = true ∧
     (action (ProbeOutcome.completed 0 ("") (Except.ok wPayload)) (SpawnOutcome.ran 0 ("") [])
        (SpawnOutcome.ran 0 ("") []) [] ("linux") true).exit_code =
       (action (ProbeOutcome.completed 0 ("") (Except.ok wPayload)) (SpawnOutcome.ran 0 ("") [])
        (SpawnOutcome.ran 0 ("") []) [] ("linux") false).exit_code) :=
  ⟨by with_unfolding_all decide,
   cleanup_on_every_exit_path (ProbeOutcome.completed 0 ("") (Except.ok wPayload))
     (SpawnOutcome.ran 0 ("") []) (SpawnOutcome.ran 0 ("") []) [] ("linux") true
     (by with_unfolding_all decide)⟩

/-- Claim C6 (confirmed): the entry-selection stage succeeds exactly when the
payload has at least one stream and one packet entry, selects the first stream
entry and the last packet entry, and names the missing entity otherwise. -/
theorem video_info_requires_stream_and_packet (p : FfProbeStreams) :
    ((∃ v, get_video_info_parse p = Except.ok v) ↔ p.streams ≠ [] ∧ p.packets ≠ []) ∧
    (p.streams = [] → get_video_info_parse p = Except.error missing_stream_msg) ∧
    (∀ s, p.streams.head? = some s → p.packets = [] →
      get_video_info_parse p = Except.error missing_packets_msg) ∧
    (∀ s l, p.streams.head? = some s → p.packets.getLast? = some l →
      get_video_info_parse p = Except.ok ⟨s, l⟩) := by
  refine ⟨?_, ?_, ?_, ?_⟩
  · cases hst : p.streams.head? with
    | none =>
      have hs : p.streams = [] := List.head?_eq_none_iff.mp hst
      unfold get_video_info_parse
      rw [hst]
      simp [hs]
    | some s =>
      have hs : p.streams ≠ [] := by
        intro hnil; rw [hnil] at hst; simp at hst
      cases hpl : p.packets.getLast? with
      | none =>
        have hp : p.packets = [] := List.getLast?_eq_none_iff.mp hpl
        unfold get_video_info_parse
        rw [hst, hpl]
        simp [hp]
      | some l =>
        have hp : p.packets ≠ [] := by
          intro hnil; rw [hnil] at hpl; simp at hpl
        unfold get_video_info_parse
        rw [hst, hpl]
        simp [hs, hp]
  · intro hnil
    unfold get_video_info_parse
    rw [hnil]
    rfl
  · intro s hst hnil
    unfold get_video_info_parse
    rw [hst, hnil]
    rfl
  · intro s l hst hpl
    unfold get_video_info_parse
    rw [hst, hpl]

/-- Witness for claim C6 at a payload with one stream and one packet entry. -/
theorem video_info_requires_stream_and_packet_witness :
    wPayload.streams.head? = some wStream ∧ wPayload.packets.getLast? = some wPacket ∧
    get_video_info_parse wPayload = Except.ok ⟨wStream, wPacket⟩ :=
  ⟨rfl, by simp [wPayload],
   (video_info_requires_stream_and_packet wPayload).2.2.2 wStream wPacket rfl (by simp [wPayload])⟩

/-- Claim C7 (confirmed): with both metadata fields numeric and a positive
timestamp, the expected output frame count is
floor(total_packets / ((total_packets / last_packet_timestamp) / fps)); at
total_packets 300, timestamp 10 and fps 12 it is 120. -/
theorem expected_frames_formula (t : Nat) (d f : ℚ) (hd : 0 < d) :
    total_generated_frames (some t) (some d) f = some ⌊(t : ℚ) / (((t : ℚ) / d) / f)⌋ ∧
    total_generated_frames (some 300) (some 10) 12 = some 120 := by
  constructor
  · simp only [total_generated_frames]
    rw [if_pos hd.ne']
  · with_unfolding_all decide

/-- Witness for claim C7 at the spec's concrete numbers. -/
theorem expected_frames_formula_witness :
    (0 : ℚ) < 10 ∧
      (total_generated_frames (some 300) (some 10) 12 =
          some ⌊((300 : Nat) : ℚ) / ((((300 : Nat) : ℚ) / 10) / 12)⌋ ∧
        total_generated_frames (some 300) (some 10) 12 = some 120) :=
  ⟨by norm_num, expected_frames_formula 300 10 12 (by norm_num)⟩

/-- Claim C8 (confirmed): the downscale filter is put at the head of the
video-filter chain exactly when the original-size flag is absent and the
stream width exceeds 1024, and the filter is scale=1024:-1 with height -1. -/
theorem downscale_policy (k : Bool) (w : Nat) (f : Nat) :
    (vf_args k w f =
      if k = false ∧ RESOLUTION_MAX_WIDTH < w then scale_filter ++ (",") ++ fps_arg f
      else fps_arg f) ∧
    ((scale_arg k w).isSome = true ↔ k = false ∧ RESOLUTION_MAX_WIDTH < w) ∧
    (scale_arg k w = none ∨ scale_arg k w = some scale_filter) := by
  have hsf : ("scale=") ++ toString RESOLUTION_MAX_WIDTH ++ (":-1") = scale_filter := by decide
  unfold vf_args scale_arg
  by_cases hk : k = false ∧ RESOLUTION_MAX_WIDTH < w
  · rw [if_pos hk, if_pos hk, hsf]
    simp [join_comma, hk]
  · rw [if_neg hk, if_neg hk]
    simp [join_comma, hk]

/-- Claim C9 (confirmed): with exit status 0 the resolvers never consult the
stderr text, a structurally good payload succeeds even alongside non-empty
stderr, and a nonzero exit status fails with the stderr text. -/
theorem resolver_ignores_stderr (code : Int) (s1 s2 : String)
    (payload : Except String FfProbeStreams) (payload2 : Except String GifskeenoStreams)
    (h : code = 0) :
    get_video_info (ProbeOutcome.completed code s1 payload) =
      get_video_info (ProbeOutcome.completed code s2 payload) ∧
    get_video_resolution (ProbeOutcome.completed code s1 payload2) =
      get_video_resolution (ProbeOutcome.completed code s2 payload2) ∧
    (∀ p, payload = Except.ok p → p.streams ≠ [] → p.packets ≠ [] →
      ∃ v, get_video_info (ProbeOutcome.completed code s1 payload) = Except.ok v) ∧
    (∀ c2 : Int, c2 ≠ 0 →
      get_video_info (ProbeOutcome.completed c2 s1 payload) = Except.error s1) := by
  subst h
  refine ⟨by simp [get_video_info], by simp [get_video_resolution], ?_, ?_⟩
  · rintro p rfl hs hp
    simp only [get_video_info, ne_eq, not_true_eq_false, if_false, reduceIte]
    have := ((video_info_requires_stream_and_packet p).1).mpr ⟨hs, hp⟩
    simpa using this
  · intro c2 hc
    simp [get_video_info, hc]

/-- Witness for claim C9: exit status 0, non-empty stderr, good payload. -/
theorem resolver_ignores_stderr_witness :
    ((0 : Int) = 0) ∧
      ∃ v, get_video_info (ProbeOutcome.completed 0 wWarn (Except.ok wPayload)) = Except.ok v :=
  ⟨rfl,
   (resolver_ignores_stderr 0 wWarn ("") (Except.ok wPayload) (Except.error ("")) rfl).2.2.1
     wPayload rfl (by decide) (by decide)⟩

/-- Claim C10 (confirmed): the plain variant's encoder runner reports a launch
failure with the message naming ffprobe and ffmpeg, and naming neither the
gifski encoder nor any of the three shells that were actually launched. -/
theorem gif_launch_error_misnames_tool :
    gifskeeno_create_gif_from_frames SpawnOutcome.launchFailure =
      Except.error ffprobe_not_found_msg ∧
    occursWithin ffprobe.data ffprobe_not_found_msg.data = true ∧
    occursWithin ffmpeg.data ffprobe_not_found_msg.data = true ∧
    occursWithin gifski.data ffprobe_not_found_msg.data = false ∧
    ∀ os, occursWithin ((shell os).data) ffprobe_not_found_msg.data = false := by
  refine ⟨rfl, by decide, by decide, by decide, ?_⟩
  intro os
  unfold shell
  by_cases h1 : os = ("windows")
  · rw [if_pos h1]; decide
  · rw [if_neg h1]
    by_cases h2 : os = ("darwin")
    · rw [if_pos h2]; decide
    · rw [if_neg h2]; decide

/-- Claim C1, corrected (first match of the chunk, raw packet count, no
clamp): when the raw packet count parsed to a nonzero value, the chunk
callback renders exactly on the first captured "frame=N" value N of the
chunk, on N over the raw packet count over 2, unclamped, and skips the render
when there is no match or N is zero. -/
theorem generate_frames_first_match (t : Nat) (data : List Char) (ht : t ≠ 0) :
    generate_frames_chunk_render (some t) data =
      match (frameSites data).head? with
      | some n => if n = 0 then Rendered.noRender else Rendered.val ((n : ℚ) / (t : ℚ) / 2)
      | none => Rendered.noRender := by
  unfold generate_frames_chunk_render
  rw [matchFrameFirst_eq_head]
  cases (frameSites data).head? with
  | none => rfl
  | some n =>
    by_cases hn : n = 0
    · simp [hn]
    · simp [hn, ht]

/-- Witness for the corrected claim C1 at a chunk with two matches. -/
theorem generate_frames_first_match_witness :
    ((300 : Nat) ≠ 0) ∧
      generate_frames_chunk_render (some 300) wC1data =
        (match (frameSites wC1data).head? with
         | some n => if n = 0 then Rendered.noRender
                     else Rendered.val ((n : ℚ) / (((300 : Nat)) : ℚ) / 2)
         | none => Rendered.noRender) :=
  ⟨by decide, generate_frames_first_match 300 wC1data (by decide)⟩

/-- Counterexample to claim C1 as stated: on the chunk "frame=100 frame=110"
with 300 raw packets, duration 10 and target fps 12 (derived expected count
120), the code renders 100/300/2 = 1/6 while the claimed rule yields
min(110/120/2, 0.5) = 11/24. -/
theorem frame_progress_counterexample :
    generate_frames_chunk_render (parseIntJs wStream.nb_read_packets.data) wC1data ≠
      claim_frames_chunk_render
        (total_generated_frames (parseIntJs wStream.nb_read_packets.data) (some 10) 12)
        wC1data := by
  with_unfolding_all decide

/-- Helper: the encoder regex never matches at the front of the empty text. -/
theorem matchGifskiAt_nil : matchGifskiAt [] = none := by decide

/-- Leftmost-match correctness of the encoder regex scan: if the pattern
matches at offset i of the scanned text and at no earlier offset, the scan
from absolute position pos returns that captured value and end position. -/
theorem scanGifskiFrom_leftmost (cs : List Char) (pos i n len : Nat)
    (h2 : matchGifskiAt (cs.drop i) = some (n, len))
    (h3 : ∀ j, j < i → matchGifskiAt (cs.drop j) = none) :
    scanGifskiFrom cs pos = some (n, pos + i + len) := by
  induction cs generalizing pos i with
  | nil =>
    rw [List.drop_nil, matchGifskiAt_nil] at h2
    cases h2
  | cons c cs ih =>
    cases i with
    | zero =>
      rw [List.drop_zero] at h2
      unfold scanGifskiFrom
      rw [h2]
      rfl
    | succ i =>
      have h0 : matchGifskiAt (c :: cs) = none := by
        have h00 := h3 0 (Nat.succ_pos i)
        rwa [List.drop_zero] at h00
      unfold scanGifskiFrom
      rw [h0]
      have h2a : matchGifskiAt (cs.drop i) = some (n, len) := by
        rwa [List.drop_succ_cons] at h2
      have h3a : ∀ j, j < i → matchGifskiAt (cs.drop j) = none := by
        intro j hj
        have := h3 (j + 1) (by omega)
        rwa [List.drop_succ_cons] at this
      have e : pos + 1 + i + len = pos + (i + 1) + len := by omega
      rw [ih (pos + 1) i h2a h3a, e]

/-- Claim C4, corrected (single stateful exec per chunk, not last match per
chunk): the encoder chunk callback runs one exec of the shared global regex,
taking the first match at or after the persistent lastIndex; the state
advances to the end of that match and, when the captured N is nonzero, the
bar is rendered on 0.5 + min(N / total / 2, 0.5), total being the directory
entry count passed by create_gif_from_frames. -/
theorem gifski_chunk_stateful_first_match (total li i n len : Nat) (line : List Char)
    (h1 : li ≤ i)
    (h2 : matchGifskiAt (line.drop i) = some (n, len))
    (h3 : ∀ j, li ≤ j → j < i → matchGifskiAt (line.drop j) = none) :
    create_gif_chunk_step total li line =
      (i + len,
       if n = 0 then Rendered.noRender
       else if total = 0 then Rendered.val 1
       else Rendered.val (1/2 + min ((n : ℚ) / (total : ℚ) / 2) (1/2))) := by
  have h2a : matchGifskiAt ((line.drop li).drop (i - li)) = some (n, len) := by
    rw [List.drop_drop]
    have e : li + (i - li) = i := by omega
    rw [e]
    exact h2
  have h3a : ∀ j, j < i - li → matchGifskiAt ((line.drop li).drop j) = none := by
    intro j hj
    rw [List.drop_drop]
    exact h3 (li + j) (by omega) (by omega)
  have hs := scanGifskiFrom_leftmost (line.drop li) li (i - li) n len h2a h3a
  unfold create_gif_chunk_step execGifski
  rw [hs]
  have e2 : li + (i - li) + len = i + len := by omega
  simp only [e2]

/-- Witness for the corrected claim C4: lastIndex 1, match at position 2. -/
theorem gifski_chunk_stateful_first_match_witness :
    ((1 : Nat) ≤ 2) ∧
      create_gif_chunk_step 9 1 c4witnessLine =
        (2 + 11, Rendered.val (1/2 + min (((3 : Nat) : ℚ) / (((9 : Nat)) : ℚ) / 2) (1/2))) := by
  constructor
  · decide
  · have h := gifski_chunk_stateful_first_match 9 1 2 3 11 c4witnessLine (by decide) (by decide)
      (by
        intro j hj1 hj2
        have hj : j = 1 := by omega
        subst hj
        decide)
    rw [h]
    norm_num

/-- Counterexample to claim C4 as stated: from the initial regex state, on the
chunk "Frame 1 / 9 Frame 2 / 9" with 9 directory entries, the code renders
0.5 + 1/18 = 5/9 for the first match while the claimed last-match rule yields
0.5 + 2/18 = 11/18. -/
theorem gif_progress_counterexample :
    (create_gif_chunk_step 9 0 c4chunk).2 ≠ claim_gif_chunk_render 9 c4chunk := by
  with_unfolding_all decide
